import Mathlib

/-!
# Verification of the mycologue-labs batch scripts

Shallow embedding of the four Python scripts of the repository
(`create-masks.py`, `create-models.py`, `create-preview.py`, `logger.py`)
and proofs about them.  Filesystem state is modelled as a boolean
membership predicate on path strings, subprocess behaviour as an explicit
oracle, and the Python exceptions that the scripts catch as explicit
alternatives of those oracles.  Path separators are modelled as `/`.
-/

/-! ## Python path helpers (`pathlib` / `os.path` fragments used by the scripts) -/

/-- Index of the last `'.'` in a string, if any (Python `str.rfind('.')`). -/
def lastDotIdx (s : String) : Option Nat :=
  ((List.range s.length).filter (fun i => s.data.getD i ' ' = '.')).getLast?

/-- `pathlib.PurePath.suffix` on a file name: the part from the last dot on,
provided that dot is neither the first nor the last character. -/
def pySuffix (name : String) : String :=
  match lastDotIdx name with
  | none => ""
  | some i => if 0 < i && i + 1 < name.length then ⟨name.data.drop i⟩ else ""

/-- `pathlib.PurePath.stem` on a file name: the name without its suffix. -/
def pyStem (name : String) : String :=
  match lastDotIdx name with
  | none => name
  | some i => if 0 < i && i + 1 < name.length then ⟨name.data.take i⟩ else name

/-- `str.lower`, restricted to the ASCII case mapping used by the extensions. -/
def strLower (s : String) : String := ⟨s.data.map Char.toLower⟩

/-- `pathlib.PurePath.name` / `os.path.basename`: the component after the last `/`. -/
def pyBasename (p : String) : String :=
  ⟨(p.data.reverse.takeWhile (fun c => c ≠ '/')).reverse⟩

/-- A `pathlib.Path`, modelled as a parent-directory string plus a file name. -/
structure PyPath where
  dir : String
  name : String
deriving DecidableEq

/-- `str(path)`. -/
def PyPath.toStr (p : PyPath) : String :=
  if p.dir = "" then p.name else p.dir ++ "/" ++ p.name

/-- The `/` operator on paths: `p / n`. -/
def PyPath.child (p : PyPath) (n : String) : PyPath := ⟨p.toStr, n⟩

/-- `path.with_suffix(s)`: the stem of the name with the new suffix appended. -/
def PyPath.withSuffix (p : PyPath) (s : String) : PyPath := ⟨p.dir, pyStem p.name ++ s⟩

/-! ## `create-masks.py` -/

/-- Outcome of the `subprocess.run(cmd, ..., check=True)` call in
`process_image`: normal completion, a `CalledProcessError` carrying the
child's stderr, or any other exception carrying its message. -/
inductive SubprocRes where
  | ok : SubprocRes
  | cpe (stderrText : String) : SubprocRes
  | exc (msg : String) : SubprocRes
deriving DecidableEq

/-- Environment oracle for one `process_image` call: the filesystem
(`Path.exists`), whether `mkdir` raises, and the subprocess outcome. -/
structure ProcEnv where
  fs : String → Bool
  mkdirExc : Option String
  subproc : SubprocRes

/-- The result of `process_image`: the returned triple plus the trace of
external commands invoked via `subprocess.run`. -/
structure ProcOut where
  status : String
  file : String
  info : String
  invoked : List (List String)
deriving DecidableEq

/-- The fixed ImageMagick command line built in `process_image`. -/
def magickCmd (inp out : String) : List String :=
  ["magick", inp,
   "-colorspace", "Gray",
   "-blur", "0x4",
   "-threshold", "4%",
   "-define", "connected-components:keep-top=1",
   "-connected-components", "8",
   "-type", "bilevel",
   out]

/-- The output path computed at the top of `process_image`:
`output_folder / f"{input_file.stem}.mask.png"` when a folder is given,
`input_file.with_suffix('.mask.png')` otherwise. -/
def maskOutputFile (input_file : PyPath) (output_folder : Option PyPath) : PyPath :=
  match output_folder with
  | some f => f.child (pyStem input_file.name ++ ".mask.png")
  | none => input_file.withSuffix ".mask.png"

/-- `process_image` of `create-masks.py`.  Every exception inside the
`try` block (modelled by `env.mkdirExc` and `env.subproc`) is caught and
turned into a `'failed'` triple, so the function is total. -/
def process_image (env : ProcEnv) (input_file : PyPath)
    (output_folder : Option PyPath) (overwrite : Bool) : ProcOut :=
  let output_file := maskOutputFile input_file output_folder
  if env.fs output_file.toStr && !overwrite then
    ⟨"skipped", input_file.toStr, output_file.toStr, []⟩
  else
    match env.mkdirExc with
    | some m => ⟨"failed", input_file.toStr, "Error: " ++ m, []⟩
    | none =>
      let cmd := magickCmd input_file.toStr output_file.toStr
      match env.subproc with
      | .ok => ⟨"success", input_file.toStr, output_file.toStr, [cmd]⟩
      | .cpe s => ⟨"failed", input_file.toStr, "Error: " ++ s, [cmd]⟩
      | .exc m => ⟨"failed", input_file.toStr, "Error: " ++ m, [cmd]⟩

/-- The three counters of the main loop of `create-masks.py`. -/
structure Counters where
  successful : Nat
  skipped : Nat
  failed : Nat
deriving DecidableEq

/-- The sum of the three counters. -/
def Counters.total (c : Counters) : Nat := c.successful + c.skipped + c.failed

/-- One iteration of the result loop: `if status == 'success': ...
elif status == 'skipped': ... else: # failed`. -/
def classifyStatus (c : Counters) (status : String) : Counters :=
  if status = "success" then { c with successful := c.successful + 1 }
  else if status = "skipped" then { c with skipped := c.skipped + 1 }
  else { c with failed := c.failed + 1 }

/-- The whole counting loop, starting from zeroed counters. -/
def maskLoop (statuses : List String) : Counters :=
  statuses.foldl classifyStatus ⟨0, 0, 0⟩

/-- A directory entry as seen by `Path.iterdir`: a name and whether it is
a regular file. -/
structure Entry where
  name : String
  isFile : Bool
deriving DecidableEq

/-- The filter of the listing: `f.is_file() and f.suffix.lower() in ['.jpg', '.jpeg']`. -/
def isImageEntry (e : Entry) : Bool :=
  e.isFile && (strLower (pySuffix e.name) == ".jpg" || strLower (pySuffix e.name) == ".jpeg")

/-- Lexicographic comparison of character lists by code point, structurally
recursive so that it evaluates by kernel reduction. -/
def charListLe : List Char → List Char → Bool
  | [], _ => true
  | _ :: _, [] => false
  | a :: as, b :: bs =>
    if a.toNat < b.toNat then true
    else if b.toNat < a.toNat then false
    else charListLe as bs

/-- Path order used by Python's `sorted` on `Path` objects, modelled as
lexicographic order on the rendered path strings. -/
def pathLe (a b : PyPath) : Prop := charListLe a.toStr.data b.toStr.data = true

instance : DecidableRel pathLe :=
  fun a b => inferInstanceAs (Decidable (charListLe a.toStr.data b.toStr.data = true))

/-- `image_files` of the mask runner's `main`: the filtered directory
listing, sorted. -/
def image_files (input : String) (entries : List Entry) : List PyPath :=
  List.insertionSort pathLe ((entries.filter isImageEntry).map (fun e => ⟨input, e.name⟩))

/-- Observable outcome of one run of the mask runner's `main`:
the final counters, the lines written to stderr, the files submitted to
the pool in order, and the process exit status. -/
structure MaskRun where
  counters : Counters
  stderrLines : List String
  processed : List PyPath
  exitCode : Nat

/-- `main` of `create-masks.py`.  `penv` gives the per-file oracle of the
worker pool.  The function body of `main` returns `None` on every path and
never calls `sys.exit`, so the process exit status is `0` throughout. -/
def mainMasks (penv : PyPath → ProcEnv) (input : String) (entries : List Entry)
    (output : Option String) (overwrite : Bool) : MaskRun :=
  let files := image_files input entries
  if files.isEmpty then
    { counters := ⟨0, 0, 0⟩,
      stderrLines := ["No image files found in the specified input directory."],
      processed := files,
      exitCode := 0 }
  else
    let output_folder := output.getD input
    let results := files.map (fun f => process_image (penv f) f (some ⟨"", output_folder⟩) overwrite)
    let c := maskLoop (results.map (·.status))
    { counters := c,
      stderrLines :=
        results.filterMap (fun r =>
          if r.status = "success" || r.status = "skipped" then none
          else some ("Failed to process " ++ r.file ++ ": " ++ r.info))
        ++ (if c.failed > 0 then ["Failed to process: " ++ toString c.failed ++ " files"] else []),
      processed := files,
      exitCode := 0 }

/-! ## `create-models.py` -/

/-- The hard-coded RealityScan executable path. -/
def realityScanExe : String :=
  "C:\\Program Files\\Epic Games\\RealityScan_2.0\\RealityScan.exe"

/-- The `rs_args` list of `run_realityscan`, as a function of the resolved
input directory, the resolved output directory and the project name. -/
def rs_args (input_dir output_dir project_name : String) : List String :=
  [realityScanExe,
   "-headless",
   "-addFolder", input_dir,
   "-align",
   "-setReconstructionRegionAuto",
   "-set", "UnwrapMaxTextureSize=4096",
   "-set", "UnwrapMaxChartsCount=0",
   "-set", "TextureMaxSize=4096",
   "-set", "TextureFileType=png",
   "-set", "TextureIsPowerOf2=1",
   "-set", "TextureIsSquare=1",
   "-set", "TextureImageFill=1",
   "-set", "TextureNormalSpace=tangent",
   "-set", "TextureNormalStyle=DirectX",
   "-calculateHighModel",
   "-unwrap",
   "-calculateTexture",
   "-simplify", "10000",
   "-smooth",
   "-unwrap",
   "-calculateTexture",
   "-exportModel", "\"Model 1\"", output_dir ++ "/" ++ project_name ++ ".high.fbx",
   "-exportModel", "\"Model 3\"", output_dir ++ "/" ++ project_name ++ ".low.fbx",
   "-exportModel", "\"Model 1\"", output_dir ++ "/" ++ project_name ++ ".high.glb",
   "-exportModel", "\"Model 3\"", output_dir ++ "/" ++ project_name ++ ".low.glb",
   "-save", output_dir ++ "/" ++ project_name ++ ".rsproj",
   "-quit"]

/-- Environment oracle for `run_realityscan`: `Path.resolve`, whether the
RealityScan executable exists, whether `subprocess.run` itself raises (the
spawn failing, caught by the `except Exception` branch), the child's exit
code when it does run, and the filesystem used by the `files_created` scan. -/
structure RSEnv where
  resolve : String → String
  exeExists : Bool
  spawnExc : Option String
  returncode : Int
  fsExists : String → Bool

/-- Result of `run_realityscan`: the returned boolean, the trace of
`subprocess.run` calls, and the lines written to stderr. -/
structure RSResult where
  ret : Bool
  invoked : List (List String)
  stderrLines : List String

/-- `run_realityscan` of `create-models.py`.  Note that `subprocess.run`
is called without `check=True`, so a non-zero `returncode` raises nothing:
the `except subprocess.CalledProcessError` branch of the source is
unreachable and the function returns `True` whenever the spawn itself
succeeds. -/
def run_realityscan (env : RSEnv) (input_dir output_dir : String)
    (project_name : String) : RSResult :=
  let inp := env.resolve input_dir
  let out := env.resolve output_dir
  let args := rs_args inp out project_name
  if env.exeExists = false then
    { ret := false,
      invoked := [],
      stderrLines := ["RealityScan executable not found: " ++ realityScanExe] }
  else
    match env.spawnExc with
    | some m =>
      { ret := false,
        invoked := [args],
        stderrLines := ["Unexpected error: " ++ m] }
    | none =>
      { ret := true, invoked := [args], stderrLines := [] }

/-- Outcome of one run of the model runner's `main` under click's
standalone dispatch: the callback's return value, the lines written to
stderr, and the process exit status.  Click's standalone mode discards
the callback's return value and exits via `ctx.exit()`, i.e. with status
0, so the `return 1` of `main` never reaches the operating system. -/
structure ModelsRun where
  retVal : Option Nat
  stderrLines : List String
  exitCode : Nat

/-- `main` of `create-models.py`: returns `1` on failure and `None`
otherwise, reporting on stderr; the process exit status is 0 on every
path because click's standalone dispatch ignores the returned value. -/
def mainModels (env : RSEnv) (input : String) (entries : List Entry)
    (output : Option String) : ModelsRun :=
  if (entries.filter isImageEntry).isEmpty then
    { retVal := none,
      stderrLines := ["No image files found in the specified input directory."],
      exitCode := 0 }
  else
    let output_dir := output.getD (input ++ "/models")
    let project_name := pyBasename input
    let r := run_realityscan env input output_dir project_name
    if r.ret then { retVal := none, stderrLines := r.stderrLines, exitCode := 0 }
    else
      { retVal := some 1,
        stderrLines := r.stderrLines ++ ["\n3D model generation failed"],
        exitCode := 0 }

/-! ## `create-preview.py` (the skip/overwrite gate, lines 43-51) -/

/-- Observable outcome of the module-level skip/overwrite check of
`create-preview.py`: the `SystemExit` code if one is raised, the lines
printed, the filesystem after the check, and whether execution proceeds
to model loading and rendering. -/
structure PreviewRes where
  exitCode : Option Nat
  printed : List String
  fsAfter : String → Bool
  proceeds : Bool

/-- The skip/overwrite gate of `create-preview.py`.  `removeRaises`
tells whether the `os.remove` call raises `OSError`: the exception is
swallowed (`except OSError: pass`), so the file stays in place but
execution proceeds to rendering either way. -/
def preview_gate (fs : String → Bool) (removeRaises : Bool) (out_path : String)
    (overwrite : Bool) : PreviewRes :=
  if fs out_path && !overwrite then
    { exitCode := some 0,
      printed := ["Preview already exists: " ++ out_path,
                  "Use --overwrite to recreate the preview"],
      fsAfter := fs,
      proceeds := false }
  else if fs out_path && overwrite then
    { exitCode := none,
      printed := [],
      fsAfter := if removeRaises then fs else fun p => if p = out_path then false else fs p,
      proceeds := true }
  else
    { exitCode := none, printed := [], fsAfter := fs, proceeds := true }

/-! ## `logger.py` -/

/-- The kind of a logging handler: a `FileHandler` with its path, or a
`StreamHandler` on `sys.stdout`. -/
inductive HKind where
  | fileH (path : String) : HKind
  | stdoutH : HKind
deriving DecidableEq

/-- A logging handler: its kind, its own level (`none` = NOTSET), and its
formatter's format string. -/
structure Handler where
  kind : HKind
  hLevel : Option Nat
  fmt : Option String
deriving DecidableEq

/-- A logger of the `logging` registry: its level and its handler list. -/
structure Logger where
  lvl : Option Nat
  handlers : List Handler
deriving DecidableEq

/-- The `logging` registry: every name maps to a logger (`logging.getLogger`
creates loggers on demand, so an absent name behaves as a fresh logger). -/
def LogState : Type := String → Logger

/-- A logger that has never been configured. -/
def freshLogger : Logger := { lvl := none, handlers := [] }

/-- `logging.getLogger(name)`. -/
def getLogger (st : LogState) (n : String) : Logger := st n

/-- Registry update: mutate the logger object registered under `n`. -/
def putLogger (st : LogState) (n : String) (l : Logger) : LogState :=
  fun m => if m = n then l else st m

/-- The format string shared by both handlers of `setup_logger`. -/
def logFormat : String := "%(asctime)s - %(levelname)s - %(message)s"

/-- `logging.INFO`. -/
def INFO : Nat := 20

/-- `setup_logger` of `logger.py`: look the logger up by the script's
basename, set its level to INFO, and — only if it has no handlers yet —
attach one file handler on `logs/{script_name}.log` and one stdout stream
handler, both with the same formatter.  Returns the new registry and the
name of the returned logger object. -/
def setup_logger (st : LogState) (script_path : String) : LogState × String :=
  let script_name := pyBasename script_path
  let lg := { getLogger st script_name with lvl := some INFO }
  if lg.handlers.isEmpty then
    let file_handler : Handler := ⟨.fileH ("logs/" ++ script_name ++ ".log"), none, some logFormat⟩
    let console_handler : Handler := ⟨.stdoutH, some INFO, some logFormat⟩
    (putLogger st script_name { lg with handlers := [file_handler, console_handler] }, script_name)
  else
    (putLogger st script_name lg, script_name)

/-! ## Helper lemmas -/

theorem charListLe_total : ∀ xs ys : List Char, charListLe xs ys = true ∨ charListLe ys xs = true := by
  intro xs
  induction xs with
  | nil => intro ys; left; rfl
  | cons x xs ih =>
    intro ys
    cases ys with
    | nil => right; rfl
    | cons y ys =>
      simp only [charListLe]
      rcases Nat.lt_trichotomy x.toNat y.toNat with h | h | h
      · left; simp [h]
      · have h1 : ¬ x.toNat < y.toNat := by omega
        have h2 : ¬ y.toNat < x.toNat := by omega
        rcases ih ys with hh | hh
        · left; simp [h1, h2, hh]
        · right; simp [h1, h2, hh]
      · right; simp [h]

theorem charListLe_trans :
    ∀ xs ys zs : List Char, charListLe xs ys = true → charListLe ys zs = true →
      charListLe xs zs = true := by
  intro xs
  induction xs with
  | nil => intro ys zs _ _; rfl
  | cons x xs ih =>
    intro ys zs h1 h2
    cases ys with
    | nil => simp [charListLe] at h1
    | cons y ys =>
      cases zs with
      | nil => simp [charListLe] at h2
      | cons z zs =>
        simp only [charListLe] at h1 h2 ⊢
        rcases Nat.lt_trichotomy x.toNat y.toNat with hxy | hxy | hxy
        · rcases Nat.lt_trichotomy y.toNat z.toNat with hyz | hyz | hyz
          · simp [show x.toNat < z.toNat by omega]
          · simp [show x.toNat < z.toNat by omega]
          · simp [Nat.lt_asymm hyz, hyz] at h2
        · rcases Nat.lt_trichotomy y.toNat z.toNat with hyz | hyz | hyz
          · simp [show x.toNat < z.toNat by omega]
          · have hnxz : ¬ x.toNat < z.toNat := by omega
            have hnzx : ¬ z.toNat < x.toNat := by omega
            rw [if_neg hnxz, if_neg hnzx]
            rw [if_neg (show ¬ x.toNat < y.toNat by omega),
                if_neg (show ¬ y.toNat < x.toNat by omega)] at h1
            rw [if_neg (show ¬ y.toNat < z.toNat by omega),
                if_neg (show ¬ z.toNat < y.toNat by omega)] at h2
            exact ih ys zs h1 h2
          · simp [Nat.lt_asymm hyz, hyz] at h2
        · simp [Nat.lt_asymm hxy, hxy] at h1

theorem classifyStatus_total (c : Counters) (s : String) :
    (classifyStatus c s).total = c.total + 1 := by
  unfold classifyStatus Counters.total
  split_ifs <;> dsimp <;> omega

theorem foldl_classify_total :
    ∀ (l : List String) (c : Counters), (l.foldl classifyStatus c).total = c.total + l.length := by
  intro l
  induction l with
  | nil => intro c; simp
  | cons s l ih =>
    intro c
    simp only [List.foldl_cons, List.length_cons]
    rw [ih, classifyStatus_total]
    omega

theorem maskLoop_total (l : List String) : (maskLoop l).total = l.length := by
  unfold maskLoop
  rw [foldl_classify_total]
  simp [Counters.total]

/-! ## Claims -/

/-- C1: in the mask runner's main loop every per-file result is classified
into exactly one of `'success'`, `'skipped'`, `'failed'` (each iteration
increments exactly one counter by one), the sum of the three counters
equals the number of results consumed after each iteration of the loop,
and after the whole run the sum equals the number of image files found. -/
theorem mask_counters_invariant (sts : List String) (n : Nat) (h : n ≤ sts.length) :
    ((maskLoop (sts.take n)).successful + (maskLoop (sts.take n)).skipped
      + (maskLoop (sts.take n)).failed = n)
    ∧ (∀ (c : Counters) (s : String),
        classifyStatus c s = ⟨c.successful + 1, c.skipped, c.failed⟩ ∨
        classifyStatus c s = ⟨c.successful, c.skipped + 1, c.failed⟩ ∨
        classifyStatus c s = ⟨c.successful, c.skipped, c.failed + 1⟩)
    ∧ (∀ (penv : PyPath → ProcEnv) (input : String) (entries : List Entry)
        (output : Option String) (overwrite : Bool),
        (mainMasks penv input entries output overwrite).counters.successful
          + (mainMasks penv input entries output overwrite).counters.skipped
          + (mainMasks penv input entries output overwrite).counters.failed
          = (image_files input entries).length) := by
  refine ⟨?_, ?_, ?_⟩
  · have := maskLoop_total (sts.take n)
    unfold Counters.total at this
    rw [this, List.length_take]
    omega
  · intro c s
    unfold classifyStatus
    split_ifs
    · left; rfl
    · right; left; rfl
    · right; right; rfl
  · intro penv input entries output overwrite
    by_cases hemp : (image_files input entries).isEmpty
    · simp only [mainMasks, hemp, if_pos]
      rw [List.isEmpty_iff.mp hemp]
      rfl
    · simp only [mainMasks, hemp, Bool.false_eq_true, if_false]
      have := maskLoop_total
        (((image_files input entries).map
          (fun f => process_image (penv f) f (some ⟨"", (output.getD input)⟩) overwrite)).map
            (·.status))
      unfold Counters.total at this
      rw [this]
      simp

/-- C1 witness: a concrete three-element status list, stopped after two
iterations: the counters sum to 2. -/
theorem mask_counters_invariant_witness :
    (maskLoop (["success", "skipped", "failed"].take 2)).successful
      + (maskLoop (["success", "skipped", "failed"].take 2)).skipped
      + (maskLoop (["success", "skipped", "failed"].take 2)).failed = 2 :=
  (mask_counters_invariant ["success", "skipped", "failed"] 2 (by decide)).1

/-- C2: the claim (and the docstring of `run_realityscan`) say the function
returns `False` when the photogrammetry subprocess exits non-zero.  The
code calls `subprocess.run` without `check=True` and never reads
`result.returncode`, so whenever the spawn itself succeeds the function
returns `True` regardless of the child's exit status — the exit code is
not handled. -/
theorem run_realityscan_ignores_returncode (env : RSEnv) (i o n : String)
    (hexe : env.exeExists = true) (hspawn : env.spawnExc = none) :
    (run_realityscan env i o n).ret = true := by
  unfold run_realityscan
  rw [hexe, hspawn]
  rfl

/-- C2 witness (the failing input of the bug): the executable exists, the
subprocess runs and exits with status 1, and `run_realityscan` still
returns `True`. -/
theorem run_realityscan_ignores_returncode_witness :
    (run_realityscan ⟨id, true, none, 1, fun _ => false⟩ "photos" "out" "proj").ret = true :=
  run_realityscan_ignores_returncode ⟨id, true, none, 1, fun _ => false⟩ "photos" "out" "proj"
    rfl rfl

/-- C3 counterexample: a mask run with one failing file has a failed
counter of 1 yet terminates with exit status 0, and a model run whose
`run_realityscan` returns `False` also terminates with exit status 0 —
neither runner exits non-zero on failure. -/
theorem batch_runners_exit_zero_cex :
    ¬ (0 < (mainMasks (fun _ => ⟨fun _ => false, none, .cpe "boom"⟩) "in"
              [⟨"a.jpg", true⟩] none false).counters.failed →
        (mainMasks (fun _ => ⟨fun _ => false, none, .cpe "boom"⟩) "in"
              [⟨"a.jpg", true⟩] none false).exitCode ≠ 0)
    ∧ ¬ ((run_realityscan ⟨id, false, none, 0, fun _ => false⟩ "in" ("in" ++ "/models")
            (pyBasename "in")).ret = false →
          (mainModels ⟨id, false, none, 0, fun _ => false⟩ "in"
              [⟨"a.jpg", true⟩] none).exitCode ≠ 0) := by
  decide

/-- C3 as amended: every failed file is reported with its own line on the
error stream and a summary line is added when the failed counter is
positive, but no failure makes the process exit non-zero: the mask runner
terminates with exit status 0 in every case, and the model runner's
callback returns 1 when `run_realityscan` returns `False` while the
process still exits 0 (click's standalone dispatch discards the returned
value). -/
theorem report_and_exit_behaviour :
    (∀ (penv : PyPath → ProcEnv) (input : String) (entries : List Entry)
       (output : Option String) (overwrite : Bool),
       (mainMasks penv input entries output overwrite).exitCode = 0)
    ∧ (∀ (penv : PyPath → ProcEnv) (input : String) (entries : List Entry)
        (output : Option String) (overwrite : Bool) (f : PyPath),
        f ∈ image_files input entries →
        (process_image (penv f) f (some ⟨"", output.getD input⟩) overwrite).status ≠ "success" →
        (process_image (penv f) f (some ⟨"", output.getD input⟩) overwrite).status ≠ "skipped" →
        ("Failed to process "
            ++ (process_image (penv f) f (some ⟨"", output.getD input⟩) overwrite).file
            ++ ": "
            ++ (process_image (penv f) f (some ⟨"", output.getD input⟩) overwrite).info)
          ∈ (mainMasks penv input entries output overwrite).stderrLines)
    ∧ (∀ (penv : PyPath → ProcEnv) (input : String) (entries : List Entry)
        (output : Option String) (overwrite : Bool),
        0 < (mainMasks penv input entries output overwrite).counters.failed →
        ("Failed to process: "
            ++ toString (mainMasks penv input entries output overwrite).counters.failed
            ++ " files")
          ∈ (mainMasks penv input entries output overwrite).stderrLines)
    ∧ (∀ (env : RSEnv) (input : String) (entries : List Entry) (output : Option String),
        (mainModels env input entries output).exitCode = 0)
    ∧ (∀ (env : RSEnv) (input : String) (entries : List Entry) (output : Option String),
        (entries.filter isImageEntry).isEmpty = false →
        (run_realityscan env input (output.getD (input ++ "/models")) (pyBasename input)).ret
          = false →
        (mainModels env input entries output).retVal = some 1
          ∧ "\n3D model generation failed" ∈ (mainModels env input entries output).stderrLines) := by
  refine ⟨?_, ?_, ?_, ?_, ?_⟩
  · intro penv input entries output overwrite
    unfold mainMasks
    by_cases hemp : (image_files input entries).isEmpty
    · rw [if_pos hemp]
    · rw [if_neg hemp]
  · intro penv input entries output overwrite f hf hs1 hs2
    have hne : ¬ (image_files input entries).isEmpty = true := by
      cases himg : image_files input entries with
      | nil => rw [himg] at hf; cases hf
      | cons a l => simp
    unfold mainMasks
    rw [if_neg hne]
    simp only []
    apply List.mem_append_left
    apply List.mem_filterMap.mpr
    refine ⟨process_image (penv f) f (some ⟨"", output.getD input⟩) overwrite,
      List.mem_map.mpr ⟨f, hf, rfl⟩, ?_⟩
    rw [if_neg (by simp [hs1, hs2])]
  · intro penv input entries output overwrite h
    unfold mainMasks at h ⊢
    by_cases hemp : (image_files input entries).isEmpty
    · rw [if_pos hemp] at h
      simp at h
    · rw [if_neg hemp] at h ⊢
      simp only at h ⊢
      rw [if_pos h]
      simp
  · intro env input entries output
    unfold mainModels
    by_cases hemp : (entries.filter isImageEntry).isEmpty
    · rw [if_pos hemp]
    · rw [if_neg hemp]
      simp only []
      by_cases hret : (run_realityscan env input (output.getD (input ++ "/models"))
          (pyBasename input)).ret
      · rw [if_pos hret]
      · rw [if_neg hret]
  · intro env input entries output hne hret
    unfold mainModels
    rw [hne]
    simp only [Bool.false_eq_true, if_false, hret]
    simp

/-- C3 (amended) witness: the concrete failing mask run exits with
status 0 and carries both its per-file line and the summary line on
stderr, and a concrete model run whose `run_realityscan` fails returns 1
while exiting with status 0. -/
theorem report_and_exit_behaviour_witness :
    (mainMasks (fun _ => ⟨fun _ => false, none, .cpe "boom"⟩) "in"
        [⟨"a.jpg", true⟩] none false).exitCode = 0
    ∧ ("Failed to process "
        ++ (process_image ((fun (_ : PyPath) => (⟨fun _ => false, none, .cpe "boom"⟩ : ProcEnv))
              ⟨"in", "a.jpg"⟩) ⟨"in", "a.jpg"⟩ (some ⟨"", (none : Option String).getD "in"⟩)
              false).file
        ++ ": "
        ++ (process_image ((fun (_ : PyPath) => (⟨fun _ => false, none, .cpe "boom"⟩ : ProcEnv))
              ⟨"in", "a.jpg"⟩) ⟨"in", "a.jpg"⟩ (some ⟨"", (none : Option String).getD "in"⟩)
              false).info)
      ∈ (mainMasks (fun _ => ⟨fun _ => false, none, .cpe "boom"⟩) "in"
          [⟨"a.jpg", true⟩] none false).stderrLines
    ∧ (mainModels ⟨id, false, none, 0, fun _ => false⟩ "in" [⟨"a.jpg", true⟩] none).exitCode = 0
    ∧ (mainModels ⟨id, false, none, 0, fun _ => false⟩ "in" [⟨"a.jpg", true⟩] none).retVal
        = some 1 :=
  ⟨report_and_exit_behaviour.1 (fun _ => ⟨fun _ => false, none, .cpe "boom"⟩) "in"
      [⟨"a.jpg", true⟩] none false,
   report_and_exit_behaviour.2.1 (fun _ => ⟨fun _ => false, none, .cpe "boom"⟩) "in"
      [⟨"a.jpg", true⟩] none false ⟨"in", "a.jpg"⟩ (by decide) (by decide) (by decide),
   report_and_exit_behaviour.2.2.2.1 ⟨id, false, none, 0, fun _ => false⟩ "in"
      [⟨"a.jpg", true⟩] none,
   (report_and_exit_behaviour.2.2.2.2 ⟨id, false, none, 0, fun _ => false⟩ "in"
      [⟨"a.jpg", true⟩] none (by decide) (by decide)).1⟩

/-- C4: `process_image` returns `'skipped'` (carrying the input path and
the existing output path, without invoking the external command) exactly
when the computed output file exists and overwrite is off; with overwrite
on it never skips. -/
theorem process_image_skip_semantics (env : ProcEnv) (input_file : PyPath)
    (output_folder : Option PyPath) (overwrite : Bool) :
    ((process_image env input_file output_folder overwrite).status = "skipped"
      ↔ (env.fs (maskOutputFile input_file output_folder).toStr = true ∧ overwrite = false))
    ∧ ((process_image env input_file output_folder overwrite).status = "skipped" →
        process_image env input_file output_folder overwrite =
          ⟨"skipped", input_file.toStr, (maskOutputFile input_file output_folder).toStr, []⟩)
    ∧ (overwrite = true →
        (process_image env input_file output_folder overwrite).status ≠ "skipped") := by
  rcases hm : env.mkdirExc with _ | m <;> rcases hs : env.subproc with _ | s | m2 <;>
    cases overwrite <;> cases hf : env.fs (maskOutputFile input_file output_folder).toStr <;>
      simp [process_image, hm, hs, hf]

/-- C4 witness: with the output file present and overwrite off the result
is a skip; with overwrite on the same input is not skipped. -/
theorem process_image_skip_semantics_witness :
    (process_image ⟨fun _ => true, none, .ok⟩ ⟨"in", "a.jpg"⟩ (some ⟨"", "out"⟩) false).status
      = "skipped"
    ∧ (process_image ⟨fun _ => true, none, .ok⟩ ⟨"in", "a.jpg"⟩ (some ⟨"", "out"⟩) true).status
      ≠ "skipped" :=
  ⟨(process_image_skip_semantics ⟨fun _ => true, none, .ok⟩ ⟨"in", "a.jpg"⟩
      (some ⟨"", "out"⟩) false).1.mpr ⟨rfl, rfl⟩,
   (process_image_skip_semantics ⟨fun _ => true, none, .ok⟩ ⟨"in", "a.jpg"⟩
      (some ⟨"", "out"⟩) true).2.2 rfl⟩

/-- C5 counterexample: when the RealityScan executable does not exist,
`run_realityscan` returns without any invocation, so the photogrammetry
application is not invoked exactly once on that run. -/
theorem run_realityscan_not_always_once_cex :
    ¬ ((run_realityscan ⟨id, false, none, 0, fun _ => false⟩ "i" "o" "p").invoked.length = 1) := by
  decide

/-- C5 as amended: `run_realityscan` invokes the photogrammetry
application at most once — exactly once when the executable path exists,
never otherwise — with the `rs_args` list built from the resolved input
directory, the resolved output directory and the project name; the list
has 47 elements and every position other than the six holding those
resolved paths is identical across any two runs. -/
theorem run_realityscan_invocation_shape (env : RSEnv) (i o n : String) :
    (env.exeExists = true →
      (run_realityscan env i o n).invoked = [rs_args (env.resolve i) (env.resolve o) n])
    ∧ (env.exeExists = false → (run_realityscan env i o n).invoked = [])
    ∧ (∀ (a b m a2 b2 m2 : String),
        (rs_args a b m).length = (rs_args a2 b2 m2).length
        ∧ (∀ j : Nat, j < 47 → j ∉ ([3, 34, 37, 40, 43, 45] : List Nat) →
            (rs_args a b m).get? j = (rs_args a2 b2 m2).get? j)) := by
  refine ⟨?_, ?_, ?_⟩
  · intro hexe
    unfold run_realityscan
    rw [hexe]
    rcases hsp : env.spawnExc with _ | m <;> simp [hsp]
  · intro hexe
    unfold run_realityscan
    rw [hexe]
    rfl
  · intro a b m a2 b2 m2
    refine ⟨rfl, ?_⟩
    intro j hj hnv
    interval_cases j <;> first
      | rfl
      | exact absurd (by decide) hnv

/-- C5 (amended) witness: a concrete run with the executable present
invokes the application exactly once with the computed argument list. -/
theorem run_realityscan_invocation_shape_witness :
    (run_realityscan ⟨id, true, none, 0, fun _ => false⟩ "photos" "out" "proj").invoked
      = [rs_args "photos" "out" "proj"] :=
  (run_realityscan_invocation_shape ⟨id, true, none, 0, fun _ => false⟩ "photos" "out" "proj").1
    rfl

/-- C6: if the preview output file exists and overwrite is off, the gate
prints the two messages and exits with status 0 without proceeding to
loading or rendering, leaving the filesystem unchanged; if overwrite is
on, the file exists and `os.remove` does not raise, the file is removed
and execution proceeds to rendering. -/
theorem preview_gate_skip_overwrite (fs : String → Bool) (removeRaises : Bool)
    (out_path : String) (overwrite : Bool) :
    (fs out_path = true → overwrite = false →
      preview_gate fs removeRaises out_path overwrite =
        ⟨some 0,
         ["Preview already exists: " ++ out_path, "Use --overwrite to recreate the preview"],
         fs, false⟩)
    ∧ (fs out_path = true → overwrite = true → removeRaises = false →
        (preview_gate fs removeRaises out_path overwrite).exitCode = none
        ∧ (preview_gate fs removeRaises out_path overwrite).proceeds = true
        ∧ (preview_gate fs removeRaises out_path overwrite).fsAfter out_path = false) := by
  constructor
  · intro hfs hov
    unfold preview_gate
    rw [hfs, hov]
    rfl
  · intro hfs hov hrm
    unfold preview_gate
    rw [hfs, hov, hrm]
    refine ⟨rfl, rfl, ?_⟩
    simp

/-- C6 witness: a concrete filesystem containing the output file — with
overwrite off the gate exits 0 without proceeding; with overwrite on and
a non-raising `os.remove` the file is gone afterwards. -/
theorem preview_gate_skip_overwrite_witness :
    preview_gate (fun p => p == "out/a-preview.png") false "out/a-preview.png" false =
      ⟨some 0,
       ["Preview already exists: " ++ "out/a-preview.png",
        "Use --overwrite to recreate the preview"],
       (fun p => p == "out/a-preview.png"), false⟩
    ∧ (preview_gate (fun p => p == "out/a-preview.png") false "out/a-preview.png" true).fsAfter
        "out/a-preview.png" = false :=
  ⟨(preview_gate_skip_overwrite (fun p => p == "out/a-preview.png") false "out/a-preview.png"
      false).1 (by decide) rfl,
   ((preview_gate_skip_overwrite (fun p => p == "out/a-preview.png") false "out/a-preview.png"
      true).2 (by decide) rfl rfl).2.2⟩

/-- C7: when the logger registered under the script's basename has no
handlers yet, `setup_logger` returns that logger configured at level INFO
with exactly two handlers: one file handler on `logs/{script_name}.log`
and one stdout stream handler, both carrying the same format string. -/
theorem setup_logger_dual_output (st : LogState) (script_path : String)
    (h : (getLogger st (pyBasename script_path)).handlers = []) :
    (setup_logger st script_path).2 = pyBasename script_path
    ∧ getLogger (setup_logger st script_path).1 (pyBasename script_path) =
        { lvl := some INFO,
          handlers :=
            [⟨.fileH ("logs/" ++ pyBasename script_path ++ ".log"), none, some logFormat⟩,
             ⟨.stdoutH, some INFO, some logFormat⟩] } := by
  simp only [setup_logger]
  rw [h]
  simp only [List.isEmpty_nil, if_true]
  refine ⟨by simp, ?_⟩
  unfold getLogger putLogger
  simp

/-- C7 witness: configuring a fresh registry for `x/create-masks.py`
yields the file handler on `logs/create-masks.py.log` and the stdout
handler, both with the shared format. -/
theorem setup_logger_dual_output_witness :
    (setup_logger (fun _ => freshLogger) "x/create-masks.py").2 = pyBasename "x/create-masks.py"
    ∧ getLogger (setup_logger (fun _ => freshLogger) "x/create-masks.py").1
        (pyBasename "x/create-masks.py") =
      { lvl := some INFO,
        handlers :=
          [⟨.fileH ("logs/" ++ pyBasename "x/create-masks.py" ++ ".log"), none, some logFormat⟩,
           ⟨.stdoutH, some INFO, some logFormat⟩] } :=
  setup_logger_dual_output (fun _ => freshLogger) "x/create-masks.py" rfl

/-- C8: `process_image` always returns a triple whose status is one of
`'success'`, `'skipped'`, `'failed'`, and every exception inside its body
— `mkdir` failing, the subprocess exiting non-zero (`CalledProcessError`),
or any other exception — yields a `'failed'` triple carrying an error
message instead of propagating. -/
theorem process_image_totality (env : ProcEnv) (input_file : PyPath)
    (output_folder : Option PyPath) (overwrite : Bool) :
    ((process_image env input_file output_folder overwrite).status = "success"
      ∨ (process_image env input_file output_folder overwrite).status = "skipped"
      ∨ (process_image env input_file output_folder overwrite).status = "failed")
    ∧ (∀ m, (env.fs (maskOutputFile input_file output_folder).toStr && !overwrite) = false →
        env.mkdirExc = some m →
        process_image env input_file output_folder overwrite =
          ⟨"failed", input_file.toStr, "Error: " ++ m, []⟩)
    ∧ (∀ s, (env.fs (maskOutputFile input_file output_folder).toStr && !overwrite) = false →
        env.mkdirExc = none → env.subproc = .cpe s →
        (process_image env input_file output_folder overwrite).status = "failed"
        ∧ (process_image env input_file output_folder overwrite).info = "Error: " ++ s)
    ∧ (∀ m, (env.fs (maskOutputFile input_file output_folder).toStr && !overwrite) = false →
        env.mkdirExc = none → env.subproc = .exc m →
        (process_image env input_file output_folder overwrite).status = "failed"
        ∧ (process_image env input_file output_folder overwrite).info = "Error: " ++ m) := by
  rcases hm : env.mkdirExc with _ | m <;> rcases hs : env.subproc with _ | s | m2 <;>
    cases overwrite <;> cases hf : env.fs (maskOutputFile input_file output_folder).toStr <;>
      simp [process_image, hm, hs, hf]

/-- C8 witness: a run whose subprocess raises `CalledProcessError` returns
a `'failed'` triple with the error message. -/
theorem process_image_totality_witness :
    (process_image ⟨fun _ => false, none, .cpe "boom"⟩ ⟨"in", "a.jpg"⟩
        (some ⟨"", "out"⟩) false).status = "failed"
    ∧ (process_image ⟨fun _ => false, none, .cpe "boom"⟩ ⟨"in", "a.jpg"⟩
        (some ⟨"", "out"⟩) false).info = "Error: " ++ "boom" :=
  (process_image_totality ⟨fun _ => false, none, .cpe "boom"⟩ ⟨"in", "a.jpg"⟩
      (some ⟨"", "out"⟩) false).2.2.1 "boom" (by decide) rfl rfl

/-- C9: the mask runner's file list contains exactly the regular-file
entries whose `pathlib` suffix lowercases to `.jpg` or `.jpeg`, it is
sorted in lexicographic path order, and the main loop submits exactly
that list to the pool. -/
theorem image_files_listing (input : String) (entries : List Entry) :
    (∀ p : PyPath,
      p ∈ image_files input entries ↔
        ∃ e, e ∈ entries ∧ e.isFile = true
          ∧ (strLower (pySuffix e.name) = ".jpg" ∨ strLower (pySuffix e.name) = ".jpeg")
          ∧ p = ⟨input, e.name⟩)
    ∧ List.Sorted pathLe (image_files input entries)
    ∧ (∀ (penv : PyPath → ProcEnv) (output : Option String) (overwrite : Bool),
        (mainMasks penv input entries output overwrite).processed = image_files input entries) := by
  refine ⟨?_, ?_, ?_⟩
  · intro p
    unfold image_files
    rw [List.Perm.mem_iff (List.perm_insertionSort pathLe _)]
    simp only [List.mem_map, List.mem_filter, isImageEntry, Bool.and_eq_true, Bool.or_eq_true,
      beq_iff_eq]
    constructor
    · rintro ⟨e, ⟨he, hf, hext⟩, rfl⟩
      exact ⟨e, he, hf, hext, rfl⟩
    · rintro ⟨e, he, hf, hext, rfl⟩
      exact ⟨e, ⟨he, hf, hext⟩, rfl⟩
  · exact @List.sorted_insertionSort PyPath pathLe inferInstance
      ⟨fun a b => charListLe_total a.toStr.data b.toStr.data⟩
      ⟨fun a b c h1 h2 => charListLe_trans a.toStr.data b.toStr.data c.toStr.data h1 h2⟩
      _
  · intro penv output overwrite
    unfold mainMasks
    by_cases hemp : (image_files input entries).isEmpty
    · rw [if_pos hemp]
    · rw [if_neg hemp]

/-- C9 witness: a concrete directory with a subdirectory, a non-image file
and two image files in unsorted order lists exactly the two image files in
sorted order. -/
theorem image_files_listing_witness :
    (⟨"in", "a.JPEG"⟩ : PyPath) ∈ image_files "in"
      [⟨"b.jpg", true⟩, ⟨"a.JPEG", true⟩, ⟨"c.png", true⟩, ⟨"d.jpg", false⟩]
    ∧ List.Sorted pathLe (image_files "in"
        [⟨"b.jpg", true⟩, ⟨"a.JPEG", true⟩, ⟨"c.png", true⟩, ⟨"d.jpg", false⟩]) :=
  ⟨(image_files_listing "in"
      [⟨"b.jpg", true⟩, ⟨"a.JPEG", true⟩, ⟨"c.png", true⟩, ⟨"d.jpg", false⟩]).1
        ⟨"in", "a.JPEG"⟩ |>.mpr
      ⟨⟨"a.JPEG", true⟩, by decide, rfl, by decide, rfl⟩,
   (image_files_listing "in"
      [⟨"b.jpg", true⟩, ⟨"a.JPEG", true⟩, ⟨"c.png", true⟩, ⟨"d.jpg", false⟩]).2.1⟩

/-- C10: `setup_logger` is idempotent per script name: starting from a
registry where the script's logger has no handlers, a second call with a
path of the same basename returns the same logger (same registry name),
leaves the registry unchanged, and the handler count stays at two. -/
theorem setup_logger_idempotent (st : LogState) (p1 p2 : String)
    (hbase : pyBasename p2 = pyBasename p1)
    (h0 : (getLogger st (pyBasename p1)).handlers = []) :
    (setup_logger (setup_logger st p1).1 p2).2 = (setup_logger st p1).2
    ∧ (setup_logger (setup_logger st p1).1 p2).1 = (setup_logger st p1).1
    ∧ (getLogger (setup_logger (setup_logger st p1).1 p2).1
        (setup_logger (setup_logger st p1).1 p2).2).handlers.length = 2 := by
  have hs1 : setup_logger st p1 =
      (putLogger st (pyBasename p1)
        { lvl := some INFO,
          handlers := [⟨.fileH ("logs/" ++ pyBasename p1 ++ ".log"), none, some logFormat⟩,
                       ⟨.stdoutH, some INFO, some logFormat⟩] }, pyBasename p1) := by
    simp only [setup_logger]
    rw [h0]
    simp only [List.isEmpty_nil, if_true]
  have hget : getLogger (setup_logger st p1).1 (pyBasename p1) =
      { lvl := some INFO,
        handlers := [⟨.fileH ("logs/" ++ pyBasename p1 ++ ".log"), none, some logFormat⟩,
                     ⟨.stdoutH, some INFO, some logFormat⟩] } := by
    rw [hs1]
    unfold getLogger putLogger
    simp
  have hs2 : setup_logger (setup_logger st p1).1 p2 =
      ((setup_logger st p1).1, pyBasename p1) := by
    rw [hs1]
    simp only [setup_logger, hbase, getLogger, putLogger]
    simp
    funext m
    by_cases hm : m = pyBasename p1 <;> simp [putLogger, hm]
  refine ⟨?_, ?_, ?_⟩
  · rw [hs2, hs1]
  · rw [hs2]
  · rw [hs2]
    dsimp only
    rw [hget]
    rfl

/-- C10 witness: two calls on a fresh registry with paths `x/a.py` and
`y/a.py` return the same logger name, the same registry, and two
handlers. -/
theorem setup_logger_idempotent_witness :
    (setup_logger (setup_logger (fun _ => freshLogger) "x/a.py").1 "y/a.py").2
      = (setup_logger (fun _ => freshLogger) "x/a.py").2
    ∧ (setup_logger (setup_logger (fun _ => freshLogger) "x/a.py").1 "y/a.py").1
      = (setup_logger (fun _ => freshLogger) "x/a.py").1
    ∧ (getLogger (setup_logger (setup_logger (fun _ => freshLogger) "x/a.py").1 "y/a.py").1
        (setup_logger (setup_logger (fun _ => freshLogger) "x/a.py").1 "y/a.py").2).handlers.length
      = 2 :=
  setup_logger_idempotent (fun _ => freshLogger) "x/a.py" "y/a.py" (by decide) rfl
